import Mathlib

/-!
# Shallow embedding of `broadcasttools.go`

This file embeds the Go source of the `broadcasttools` telegraf input
plugin (one file, `broadcasttools.go`) into Lean and proves properties of
the embedding.

Modelling conventions:
* Go `interface{}` values reaching the decoder are modelled by `GoVal`
  (numbers as `Int`, strings, the untyped `nil` of a missing map entry,
  and an opaque `vOther` for any other JSON value that is only passed
  through).
* Go maps are modelled as association lists; `src[k]` on a missing key
  returns the zero `interface{}`, i.e. `GoVal.vNil`.
* A failed Go type assertion (`x.(string)`, `x.(map[string]interface{})`)
  panics; panics are modelled as `Except.error ()` (type `Except Unit _`)
  or by an explicit `panicked` outcome.
* HTTP traffic is modelled by oracles: each call site receives the
  response the transport would have produced (`LoginResp`,
  `TelemetryResp`).  The random `AccessVal` field of the login form and
  the exact request bytes do not influence any control flow in the
  source, so they are not modelled; whether a request was *issued* is
  tracked where a claim needs it.
* `math/rand` seeding (`bt.rnd`) influences only the `AccessVal` form
  field and is therefore not modelled.
-/

/-- A Go `interface{}` value as seen by the field decoder: a JSON number
(Go `float64`, the plugin only ever treats them opaquely or produces Go
`int`, both modelled as `Int`), a JSON string, the zero `interface{}`
(`nil`, e.g. the result of a missing map lookup), or any other JSON value
(array, boolean, nested object) that the decoder only passes through. -/
inductive GoVal where
  | vNum (n : Int)
  | vStr (s : String)
  | vNil
  | vOther
  deriving DecidableEq, Repr

/-- The inner `values` object: Go `map[string]interface{}` as an
association list (first binding wins, keys unique in practice since Go
map iteration yields distinct keys). -/
abbrev Payload := List (String × GoVal)

/-- A top-level JSON value in the decoded body `data`: either a scalar
or a nested object (the only shape the source ever asserts). -/
inductive TopVal where
  | scalar (v : GoVal)
  | obj (p : Payload)
  deriving DecidableEq, Repr

/-- The decoded body `data : map[string]interface{}`. -/
abbrev TopPayload := List (String × TopVal)

/-- The `fields` map built by `device.Gather`. -/
abbrev Fields := List (String × GoVal)

/-- Go map lookup `src[k]` on `map[string]interface{}`: the zero value
`nil` (here `GoVal.vNil`) when the key is absent. -/
def pLookup (p : Payload) (k : String) : GoVal :=
  match p.find? (fun kv => kv.1 == k) with
  | some kv => kv.2
  | none => .vNil

/-- Go map lookup `data[k]` on the top-level body. -/
def pLookupTop (p : TopPayload) (k : String) : TopVal :=
  match p.find? (fun kv => kv.1 == k) with
  | some kv => kv.2
  | none => .scalar .vNil

/-- Go type assertion `x.(map[string]interface{})`: `none` means the
assertion panics. -/
def asObj : TopVal → Option Payload
  | .obj p => some p
  | _ => none

/-- Go map assignment `fields[k] = v` (overwrite or append). -/
def insertField (fs : Fields) (k : String) (v : GoVal) : Fields :=
  if fs.any (fun kv => kv.1 == k) then
    fs.map (fun kv => if kv.1 == k then (k, v) else kv)
  else
    fs ++ [(k, v)]

/-! ## Go standard-library helpers used by the source -/

/-- Numeric value of a digit string, most significant first. -/
def digitsVal (ds : List Char) : Nat :=
  ds.foldl (fun a c => a * 10 + (c.toNat - 48)) 0

/-- Largest Go `int` (64-bit). -/
def goIntMax : Int := 2 ^ 63 - 1

/-- Smallest Go `int` (64-bit). -/
def goIntMin : Int := -(2 ^ 63)

/-- `strconv.Atoi` on a list of characters: optional sign, then one or
more ASCII digits; returns `(value, ok)`.  On a syntax error the value
is `0`; on a range error the value is the clamped extremum; in both
cases `ok` is `false` (Go returns a non-nil `err`). -/
def goAtoiL (cs : List Char) : Int × Bool :=
  let sd : Int × List Char :=
    match cs with
    | '-' :: rest => (-1, rest)
    | '+' :: rest => (1, rest)
    | _ => (1, cs)
  if sd.2 = [] ∨ ¬ sd.2.all Char.isDigit then (0, false)
  else
    let v : Int := sd.1 * (digitsVal sd.2 : Int)
    if v > goIntMax then (goIntMax, false)
    else if v < goIntMin then (goIntMin, false)
    else (v, true)

/-- `strconv.Atoi` on a `String`. -/
def goAtoi (s : String) : Int × Bool := goAtoiL s.toList

/-- `strings.TrimSuffix s suf`: drop `suf` from the end of `s` when it
is a suffix, otherwise return `s` unchanged. -/
def trimSuffix (s suf : String) : String :=
  let sl := s.toList
  let fl := suf.toList
  if fl.isSuffixOf sl then String.mk (sl.take (sl.length - fl.length)) else s

/-- `fmt.Sprintf "%02d"`: decimal with a leading zero up to width two. -/
def fmt02d (n : Int) : String :=
  if 0 ≤ n ∧ n < 10 then "0" ++ toString n else toString n

/-! ## The pattern table (`regexpTemp` … `regexpRelay`, `parsers`) -/

/-- The five sensor categories (`sensorType` in the source). -/
inductive SensorType where
  | temp
  | meter
  | vc
  | status
  | relay
  deriving DecidableEq, Repr

/-- The string tag of a category (`sensorTemp = "temp"`, …). -/
def SensorType.tag : SensorType → String
  | .temp => "temp"
  | .meter => "meter"
  | .vc => "vc"
  | .status => "status"
  | .relay => "relay"

/-- One entry of the `parsers` table: the fixed part of the key regexp
(`^T1(\d+)$` is the fixed string `"T1"` followed by one or more digits)
and the category whose extractor runs on a match. -/
structure Rule where
  pre : String
  sensor : SensorType
  deriving DecidableEq, Repr

/-- The `parsers` map.  Go iterates it in unspecified order; since the
five fixed key parts start with five distinct characters, at most one
rule matches any key and the iteration order is immaterial, so a fixed
list order is a faithful model. -/
def rules : List Rule :=
  [⟨"T1", .temp⟩, ⟨"M1", .meter⟩, ⟨"VCLabel", .vc⟩, ⟨"S1", .status⟩, ⟨"R2", .relay⟩]

/-- Core of the key regexp test on character lists: `some rest` exactly
when the key is the fixed part followed by one or more ASCII digits
(RE2 `\d` is `[0-9]`), `rest` being the digits. -/
def matchKeyL (pcs kcs : List Char) : Option (List Char) :=
  if pcs.isPrefixOf kcs then
    let rest := kcs.drop pcs.length
    if rest ≠ [] ∧ rest.all Char.isDigit then some rest else none
  else none

/-- `reg.FindStringSubmatch key` for a regexp of shape `^pre(\d+)$`:
`some ds` exactly when `key = pre ++ ds` with `ds` a nonempty digit
string (`ds` is the captured group `matches[1]`). -/
def matchKey (pre key : String) : Option String :=
  (matchKeyL pre.toList key.toList).map String.mk

/-- The companion value key consulted by each extractor
(`fmt.Sprintf("TempValue%02d", index)`, …). -/
def companionKey (s : SensorType) (index : Int) : String :=
  match s with
  | .temp => "TempValue" ++ fmt02d index
  | .meter => "MeterValue" ++ fmt02d index
  | .vc => "VCValue" ++ fmt02d index
  | .status => "StatusIndicator" ++ fmt02d index
  | .relay => "RelayIndicator" ++ fmt02d index

/-- The body of the matching `parser` closure.  The temperature parser
asserts `src[...].(string)` — a panic (`Except.error ()`) when the
companion entry is absent (`vNil`) or not a string — then trims the
`" *F"` suffix and takes `strconv.Atoi`, discarding the error.  The four
other parsers return `src[...]` unchanged (the zero `interface{}` when
the companion key is absent). -/
def runParser (s : SensorType) (src : Payload) (index : Int) : Except Unit GoVal :=
  match s with
  | .temp =>
    match pLookup src (companionKey .temp index) with
    | .vStr t => .ok (.vNum (goAtoi (trimSuffix t " *F")).1)
    | _ => .error ()
  | _ => .ok (pLookup src (companionKey s index))

/-! ## The decode loop of `device.Gather` (lines 242–255) -/

/-- The inner loop `for reg, parser := range parsers` for one payload
key: on a regexp match, `strconv.Atoi(matches[1])`; an `Atoi` error
skips the key (`continue`); otherwise the parser runs (possibly
panicking) and `fields[fmt.Sprintf("%s_%d", sensor, index)] = value`.
Go does not break after a match, so the remaining rules are still
tried (none can match the same key). -/
def applyRulesL (vs : Payload) (key : String) : List Rule → Fields → Except Unit Fields
  | [], fs => .ok fs
  | r :: rs, fs =>
    match matchKey r.pre key with
    | none => applyRulesL vs key rs fs
    | some ds =>
      let a := goAtoi ds
      if a.2 = false then applyRulesL vs key rs fs
      else
        match runParser r.sensor vs a.1 with
        | .error e => .error e
        | .ok v =>
          applyRulesL vs key rs
            (insertField fs (r.sensor.tag ++ "_" ++ toString a.1) v)

/-- One iteration of the outer loop `for key := range values`. -/
def applyRules (vs : Payload) (key : String) (fs : Fields) : Except Unit Fields :=
  applyRulesL vs key rules fs

/-- The outer loop over a given key order. -/
def decodeKeys (vs : Payload) : List String → Fields → Except Unit Fields
  | [], fs => .ok fs
  | k :: rest, fs =>
    match applyRules vs k fs with
    | .error e => .error e
    | .ok fs2 => decodeKeys vs rest fs2

/-- The whole decode section of `device.Gather`: iterate the keys of
`values` starting from the empty `fields` map.  (Go map iteration order
is unspecified; the list order of the payload stands in for it.  Two
distinct keys that produce the same field name also produce the same
value — both consult the same companion entry — so the order cannot
change the result.) -/
def decodeFields (vs : Payload) : Except Unit Fields :=
  decodeKeys vs (vs.map Prod.fst) []

/-! ## Session state and `device.Dial` / `device.Close` -/

/-- The mutable state of a `device`: the session cookie `ck`
(`*http.Cookie`, modelled as the cookie value) and whether the
`http.Client` handle `c` is still set. -/
structure device where
  ck : Option String
  c : Bool
  deriving DecidableEq, Repr

/-- A freshly constructed device (`&device{bt: bt, base: base, c: …}`):
no cookie, live client. -/
def newDevice : device := { ck := none, c := true }

/-- What the transport returns for the login POST
(`/cgi-bin/postauth.cgi`): a transport error, or a status code plus the
response cookies. -/
inductive LoginResp where
  | transportErr (e : String)
  | resp (status : Nat) (cookies : List String)
  deriving DecidableEq, Repr

/-- Result of `device.Dial`: the device afterwards, the returned error,
and whether a login HTTP request was issued. -/
structure DialOut where
  d : device
  err : Option String
  requested : Bool
  deriving DecidableEq, Repr

/-- `device.Dial` (pointer receiver).  Refuses when a cookie is already
held, before any request is built.  Otherwise issues the login POST;
transport error, a non-200 status, and an empty cookie list each fail;
on success the first response cookie is stored. -/
def device.Dial (d : device) (resp : LoginResp) : DialOut :=
  if d.ck.isSome then ⟨d, some "already logged in", false⟩
  else
    match resp with
    | .transportErr e => ⟨d, some e, true⟩
    | .resp status cookies =>
      if status ≠ 200 then ⟨d, some "authentication failed", true⟩
      else
        match cookies with
        | [] => ⟨d, some "no cookies returned", true⟩
        | c0 :: _ => ⟨{ d with ck := some c0 }, none, true⟩

/-- The body of `device.Close` as it acts on its receiver copy: on a
transport error it returns `nil` immediately (`// ignore logout
errors`) leaving the copy untouched; otherwise it clears `d.ck` and
`d.c` on the copy and returns `nil`. -/
def device.CloseBody (d : device) (sendOk : Bool) : device × Option String :=
  if sendOk then ({ d with ck := none, c := false }, none)
  else (d, none)

/-- `device.Close` as the caller observes it.  The source declares
`func (d device) Close() error` with a VALUE receiver, so every
assignment in the body mutates a copy: the caller's device is unchanged
no matter what the body does; only the returned error is observable. -/
def device.Close (d : device) (sendOk : Bool) : device × Option String :=
  (d, (device.CloseBody d sendOk).2)

/-! ## `device.Gather` (lines 217–260) -/

instance instDecEqExceptLocal {ε α : Type} [DecidableEq ε] [DecidableEq α] :
    DecidableEq (Except ε α) := fun a b =>
  match a, b with
  | .error e1, .error e2 =>
    if h : e1 = e2 then isTrue (by rw [h]) else isFalse (by simp [h])
  | .ok v1, .ok v2 =>
    if h : v1 = v2 then isTrue (by rw [h]) else isFalse (by simp [h])
  | .error _, .ok _ => isFalse (by simp)
  | .ok _, .error _ => isFalse (by simp)

/-- What the transport returns for the telemetry GET
(`/cgi-bin/getexchanger_monitor.cgi`): a transport error, or a status
code plus (for when the body is read) the result of the JSON decode of
the body — `Except.error` when `json.Decode` fails. -/
inductive TelemetryResp where
  | transportErr (e : String)
  | resp (status : Nat) (body : Except String TopPayload)
  deriving DecidableEq, Repr

/-- Observable outcome of one `device.Gather` call: fields accumulated
via `acc.AddFields` and a `nil` return, a returned error, or a runtime
panic (failed type assertion). -/
inductive GatherOut where
  | ok (fields : Fields)
  | err (e : String)
  | panicked
  deriving DecidableEq, Repr

/-- `true` exactly on the `err` outcome. -/
def GatherOut.isErr : GatherOut → Bool
  | .err _ => true
  | _ => false

/-- `true` exactly on the `ok` outcome. -/
def GatherOut.isOk : GatherOut → Bool
  | .ok _ => true
  | _ => false

/-- Result of one `device.Gather` call: the device afterwards, the
outcome, how many times `device.Dial` was invoked, and how many login
HTTP requests were actually issued. -/
structure PollResult where
  d : device
  out : GatherOut
  dialCalls : Nat
  loginRequests : Nat
  deriving DecidableEq, Repr

/-- `device.Gather` (pointer receiver).  Transport error: returned as
is.  Status other than 200: when it is 206 (`http.StatusPartialContent`,
`// cookie invalid`) `d.Dial()` is called once (`// reconnect`) — its
error, if any, is returned, else the `expected status` error is returned
(the stale response is never parsed).  Status 200: JSON-decode the body,
assert `data["values"].(map[string]interface{})` (panic when it is not
an object), run the decode loop (which may panic), and on success add
the fields and return `nil`. -/
def device.Gather (d : device) (tresp : TelemetryResp) (lresp : LoginResp) : PollResult :=
  match tresp with
  | .transportErr e => ⟨d, .err e, 0, 0⟩
  | .resp status body =>
    if status ≠ 200 then
      if status = 206 then
        let dial := device.Dial d lresp
        let reqs := if dial.requested then 1 else 0
        match dial.err with
        | some e => ⟨dial.d, .err e, 1, reqs⟩
        | none =>
          ⟨dial.d, .err ("expected status 200; got " ++ toString status), 1, reqs⟩
      else ⟨d, .err ("expected status 200; got " ++ toString status), 0, 0⟩
    else
      match body with
      | .error e => ⟨d, .err e, 0, 0⟩
      | .ok data =>
        match asObj (pLookupTop data "values") with
        | none => ⟨d, .panicked, 0, 0⟩
        | some values =>
          match decodeFields values with
          | .error _ => ⟨d, .panicked, 0, 0⟩
          | .ok fields => ⟨d, .ok fields, 0, 0⟩

/-! ## Fleet state and `BroadcastTools.init` / `BroadcastTools.Gather` -/

/-- One entry of `bt.devices`: the parsed base address (modelled by the
configured server string) and the device state. -/
structure DevRec where
  base : String
  dev : device
  deriving DecidableEq, Repr

/-- The `BroadcastTools` plugin state (the `rnd` field only feeds the
unmodelled `AccessVal` form value). -/
structure BroadcastTools where
  Servers : List String
  User : String
  Password : String
  devices : List DevRec
  initialized : Bool
  deriving DecidableEq, Repr

/-- What happens for one configured server during `init`: `url.Parse`
fails, or it succeeds and the login POST of the fresh device's `Dial`
gets this transport response. -/
inductive ServerSetup where
  | parseErr (e : String)
  | parsed (resp : LoginResp)
  deriving DecidableEq, Repr

/-- The per-server outcome of the `init` loop body: the error returned,
or the freshly dialled device. -/
def setupResult (s : ServerSetup) : Except String device :=
  match s with
  | .parseErr e => .error e
  | .parsed resp =>
    let out := device.Dial newDevice resp
    match out.err with
    | some e => .error e
    | none => .ok out.d

/-- The `for _, u := range bt.Servers` loop of `BroadcastTools.init`:
parse the address, construct a fresh device, `Dial` it, and append it to
`bt.devices`; any failure returns immediately (keeping the devices
appended so far); after the whole loop, `bt.initialized = true`.  The
third component counts login HTTP requests issued.  `setup i` describes
what happens for the `i`-th server of the remaining list. -/
def initLoop (setup : Nat → ServerSetup) : BroadcastTools → List String →
    BroadcastTools × Option String × Nat
  | bt, [] => ({ bt with initialized := true }, none, 0)
  | bt, u :: rest =>
    match setup 0 with
    | .parseErr e => (bt, some e, 0)
    | .parsed resp =>
      let out := device.Dial newDevice resp
      match out.err with
      | some e => (bt, some e, 1)
      | none =>
        let r := initLoop (fun i => setup (i + 1))
          { bt with devices := bt.devices ++ [⟨u, out.d⟩] } rest
        (r.1, r.2.1, r.2.2 + 1)

/-- `BroadcastTools.init`: a no-op returning `nil` when already
initialized, otherwise the loop above. -/
def BroadcastTools.init (bt : BroadcastTools) (setup : Nat → ServerSetup) :
    BroadcastTools × Option String × Nat :=
  if bt.initialized then (bt, none, 0) else initLoop setup bt bt.Servers

/-- One report delivered to the accumulator for one device:
`acc.AddFields "broadcasttools" fields nil` on a `nil` poll,
`acc.AddError err` on a failed poll, or a panic of that device's
goroutine. -/
inductive Event where
  | fieldsRec (fields : Fields)
  | errRec (e : String)
  | panicEvent
  deriving DecidableEq, Repr

/-- `true` exactly on an `AddError` report. -/
def Event.isErrEv : Event → Bool
  | .errRec _ => true
  | _ => false

/-- `true` exactly on an `AddFields` report. -/
def Event.isOkEv : Event → Bool
  | .fieldsRec _ => true
  | _ => false

/-- The accumulator report of one poll outcome. -/
def eventOf : GatherOut → Event
  | .ok fs => .fieldsRec fs
  | .err e => .errRec e
  | .panicked => .panicEvent

/-- The outcome of polling one device record with a given pair of
transport responses (telemetry GET, and login POST should a 206-triggered
re-`Dial` issue one). -/
def devOut (dr : DevRec) (o : TelemetryResp × LoginResp) : GatherOut :=
  (device.Gather dr.dev o.1 o.2).out

/-- The fan-out loop of `BroadcastTools.Gather`: one goroutine per
device, each running `d.Gather(acc)` and reporting `acc.AddError` on a
non-nil result; `wg.Wait()` joins them all before returning.  The
goroutines touch disjoint device states and the accumulator is
thread-safe, so the batch is modelled sequentially: one report per
device, in device order.  `po i` is the transport behaviour seen by the
`i`-th device of the remaining list. -/
def pollAll : List DevRec → (Nat → TelemetryResp × LoginResp) →
    List DevRec × List Event
  | [], _ => ([], [])
  | dr :: rest, po =>
    let pr := device.Gather dr.dev (po 0).1 (po 0).2
    let r := pollAll rest (fun i => po (i + 1))
    ({ dr with dev := pr.d } :: r.1, eventOf pr.out :: r.2)

/-- `BroadcastTools.Gather`: run `init` first when not yet initialized,
returning its error without polling anything if it fails; then poll
every device in `bt.devices` and return `nil`.  Result: the plugin state
afterwards, the reports delivered to the accumulator, and the value
returned to telegraf. -/
def BroadcastTools.Gather (bt : BroadcastTools) (setup : Nat → ServerSetup)
    (po : Nat → TelemetryResp × LoginResp) :
    BroadcastTools × List Event × Option String :=
  if bt.initialized then
    let r := pollAll bt.devices po
    ({ bt with devices := r.1 }, r.2, none)
  else
    match BroadcastTools.init bt setup with
    | (bt2, some e, _) => (bt2, [], some e)
    | (bt2, none, _) =>
      let r := pollAll bt2.devices po
      ({ bt2 with devices := r.1 }, r.2, none)

/-! ## Theorems: session level (claims C1, C2, C4, C5, C6) -/

/-- C5: for every device that already holds a session token, `Dial`
fails with the `AlreadyAuthenticated` error (`"already logged in"`),
issues no HTTP request, and leaves the device — in particular the held
token — unchanged. -/
theorem C5_dial_rejects_relogin (d : device) (c : String) (resp : LoginResp)
    (h : d.ck = some c) :
    device.Dial d resp = ⟨d, some "already logged in", false⟩ := by
  simp [device.Dial, h]

/-- C5 witness at a concrete device and response. -/
theorem C5_witness :
    device.Dial ⟨some "sess", true⟩ (.resp 200 ["fresh"]) =
      ⟨⟨some "sess", true⟩, some "already logged in", false⟩ :=
  C5_dial_rejects_relogin ⟨some "sess", true⟩ "sess" (.resp 200 ["fresh"]) rfl

/-- C6: the temperature extractor strips the trailing `" *F"` suffix
from the companion string value and runs `strconv.Atoi` on the rest,
keeping the value and discarding the error; `"72 *F"` yields `72` and
the unparseable `"ABC *F"` yields `0`. -/
theorem C6_temperature_extraction :
    (∀ (vs : Payload) (i : Int) (s : String),
        pLookup vs (companionKey .temp i) = .vStr s →
        runParser .temp vs i = .ok (.vNum (goAtoi (trimSuffix s " *F")).1))
    ∧ (goAtoi (trimSuffix "72 *F" " *F")).1 = 72
    ∧ (goAtoi (trimSuffix "ABC *F" " *F")).1 = 0 := by
  refine ⟨?_, by decide, by decide⟩
  intro vs i s h
  simp [runParser, h]

/-- C6 witness: the general statement applied to a payload holding
`TempValue07 = "72 *F"`. -/
theorem C6_witness :
    runParser .temp [("TempValue07", .vStr "72 *F")] 7 = .ok (.vNum 72) := by
  have h :=
    C6_temperature_extraction.1 [("TempValue07", .vStr "72 *F")] 7 "72 *F" (by decide)
  rw [h]; decide

/-- C4 (code bug): `Close` always returns `nil`, but it NEVER clears
the stored token or releases the client: the method has a value
receiver, so `d.ck = nil` / `d.c = nil` mutate a copy (and on a
transport error even the copy is returned before those assignments).
The caller-visible device is unchanged in every case. -/
theorem C4_close_returns_nil_but_clears_nothing (d : device) (sendOk : Bool) :
    device.Close d sendOk = (d, none) := by
  cases sendOk <;> rfl

/-- C1 (code bug): when the telemetry GET comes back 206 on a device
that holds a (now stale) token, `Gather` calls `Dial` exactly once, but
`Dial` refuses immediately with `"already logged in"` because the stale
cookie was never cleared: no login HTTP request is issued, no new token
is stored, the device state is unchanged (so every later poll repeats
the same failure), and the poll returns the `Dial` error.  Recovery as
described by the spec can never happen. -/
theorem C1_expiry_relogin_always_refused (d : device) (c : String)
    (body : Except String TopPayload) (lresp : LoginResp) (h : d.ck = some c) :
    device.Gather d (.resp 206 body) lresp = ⟨d, .err "already logged in", 1, 0⟩ := by
  simp [device.Gather, device.Dial, h]

/-- C1 witness: a concrete stale-session device receiving 206 while the
login endpoint stands ready to return 200 with a fresh cookie. -/
theorem C1_witness :
    device.Gather ⟨some "sess", true⟩ (.resp 206 (.ok [])) (.resp 200 ["fresh"]) =
      ⟨⟨some "sess", true⟩, .err "already logged in", 1, 0⟩ :=
  C1_expiry_relogin_always_refused ⟨some "sess", true⟩ "sess" (.ok []) (.resp 200 ["fresh"]) rfl

/-- C2 counterexample: a 200 response whose JSON body is the empty
object (no `values` key) makes `Gather` panic on the unchecked type
assertion `data["values"].(map[string]interface{})` — the outcome is a
panic, not a returned error. -/
theorem C2_counterexample :
    (device.Gather ⟨some "sess", true⟩ (.resp 200 (.ok [])) (.resp 200 ["fresh"])).out
        = .panicked
    ∧ ((device.Gather ⟨some "sess", true⟩ (.resp 200 (.ok []))
          (.resp 200 ["fresh"])).out).isErr = false := by
  decide

/-- C2 (amended): for every poll whose HTTP response is 200 but whose
JSON body lacks a `values` entry that is an object, `Gather` panics
(crashing the polling goroutine and hence the process) instead of
returning a per-poll error. -/
theorem C2_missing_values_panics (d : device) (data : TopPayload) (lresp : LoginResp)
    (h : asObj (pLookupTop data "values") = none) :
    (device.Gather d (.resp 200 (.ok data)) lresp).out = .panicked := by
  simp [device.Gather, h]

/-- C2 witness: a body whose `values` entry is a string, not an object. -/
theorem C2_witness :
    (device.Gather ⟨none, true⟩
        (.resp 200 (.ok [("values", .scalar (.vStr "x"))])) (.transportErr "n")).out
      = .panicked :=
  C2_missing_values_panics ⟨none, true⟩ [("values", .scalar (.vStr "x"))]
    (.transportErr "n") (by decide)

/-! ## Theorems: the field decoder (claims C3, C7) -/

/-- A nonempty all-digit tail after the fixed part always matches. -/
theorem matchKeyL_append (pcs ds : List Char) (h1 : ds ≠ [])
    (h2 : ds.all Char.isDigit = true) : matchKeyL pcs (pcs ++ ds) = some ds := by
  unfold matchKeyL
  rw [if_pos ( List.isPrefixOf_iff_prefix.mpr (List.prefix_append pcs ds))]
  simp only [List.drop_left]
  rw [if_pos ⟨h1, h2⟩]

/-- A key whose first character differs from the fixed part's first
character never matches. -/
theorem matchKeyL_firstCharDiff (a b : Char) (ps ks : List Char)
    (h : (a == b) = false) : matchKeyL (a :: ps) (b :: ks) = none := by
  simp [matchKeyL, List.isPrefixOf, h]

/-- Full characterization of the key regexp test on lists. -/
theorem matchKeyL_eq_some_iff (pcs kcs ds : List Char) :
    matchKeyL pcs kcs = some ds ↔
      kcs = pcs ++ ds ∧ ds ≠ [] ∧ ds.all Char.isDigit = true := by
  constructor
  · intro h
    unfold matchKeyL at h
    by_cases hp : pcs.isPrefixOf kcs
    · rw [if_pos hp] at h
      obtain ⟨t, ht⟩ := List.isPrefixOf_iff_prefix.mp hp
      by_cases hc : kcs.drop pcs.length ≠ [] ∧ (kcs.drop pcs.length).all Char.isDigit = true
      · rw [if_pos hc] at h
        obtain rfl := Option.some_injective _ h
        subst ht
        rw [List.drop_left] at hc ⊢
        exact ⟨rfl, hc.1, hc.2⟩
      · rw [if_neg hc] at h
        exact absurd h (by simp)
    · rw [if_neg hp] at h
      exact absurd h (by simp)
  · rintro ⟨rfl, h1, h2⟩
    exact matchKeyL_append pcs ds h1 h2

/-- Full characterization of the key regexp test on strings: a rule's
pattern accepts a key exactly when the key is the fixed part followed
by ONE OR MORE digits (the captured group). -/
theorem matchKey_eq_some_iff (p key ds : String) :
    matchKey p key = some ds ↔
      key.toList = p.toList ++ ds.toList ∧ ds.toList ≠ [] ∧
        ds.toList.all Char.isDigit = true := by
  unfold matchKey
  rw [Option.map_eq_some']
  constructor
  · rintro ⟨l, hl, rfl⟩
    exact (matchKeyL_eq_some_iff _ _ _).mp hl
  · rintro ⟨hk, h1, h2⟩
    exact ⟨ds.toList, (matchKeyL_eq_some_iff _ _ _).mpr ⟨hk, h1, h2⟩, by rfl⟩
/-- Decode-loop behaviour of a `temp` key whose companion value key is
absent from the payload. -/
theorem applyRules_temp_missing (vs : Payload) (fs : Fields) (ds : List Char)
    (h1 : ds ≠ []) (h2 : ds.all Char.isDigit = true) (hok : (goAtoiL ds).2 = true)
    (hmiss : pLookup vs (companionKey .temp (goAtoiL ds).1) = .vNil) :
    applyRules vs (String.mk ('T' :: '1' :: ds)) fs = .error () := by
  have hT : matchKey "T1" (String.mk ('T' :: '1' :: ds)) = some (String.mk ds) := by
    have e : matchKey "T1" (String.mk ('T' :: '1' :: ds)) =
        (matchKeyL ['T', '1'] (['T', '1'] ++ ds)).map String.mk := rfl
    rw [e, matchKeyL_append _ _ h1 h2]; rfl
  have hM : matchKey "M1" (String.mk ('T' :: '1' :: ds)) = none := by
    have e : matchKey "M1" (String.mk ('T' :: '1' :: ds)) =
        (matchKeyL ('M' :: ['1']) ('T' :: (['1'] ++ ds))).map String.mk := rfl
    rw [e, matchKeyL_firstCharDiff 'M' 'T' _ _ rfl]; rfl
  have hV : matchKey "VCLabel" (String.mk ('T' :: '1' :: ds)) = none := by
    have e : matchKey "VCLabel" (String.mk ('T' :: '1' :: ds)) =
        (matchKeyL ('V' :: ['C', 'L', 'a', 'b', 'e', 'l']) ('T' :: (['1'] ++ ds))).map String.mk := rfl
    rw [e, matchKeyL_firstCharDiff 'V' 'T' _ _ rfl]; rfl
  have hS : matchKey "S1" (String.mk ('T' :: '1' :: ds)) = none := by
    have e : matchKey "S1" (String.mk ('T' :: '1' :: ds)) =
        (matchKeyL ('S' :: ['1']) ('T' :: (['1'] ++ ds))).map String.mk := rfl
    rw [e, matchKeyL_firstCharDiff 'S' 'T' _ _ rfl]; rfl
  have hR : matchKey "R2" (String.mk ('T' :: '1' :: ds)) = none := by
    have e : matchKey "R2" (String.mk ('T' :: '1' :: ds)) =
        (matchKeyL ('R' :: ['2']) ('T' :: (['1'] ++ ds))).map String.mk := rfl
    rw [e, matchKeyL_firstCharDiff 'R' 'T' _ _ rfl]; rfl
  have hA : goAtoi (String.mk ds) = goAtoiL ds := rfl
  simp [applyRules, rules, applyRulesL, hT, hM, hV, hS, hR, hA, hok,
    runParser, hmiss, SensorType.tag]

/-- Decode-loop behaviour of a `meter` key whose companion value key is
absent from the payload. -/
theorem applyRules_meter_missing (vs : Payload) (fs : Fields) (ds : List Char)
    (h1 : ds ≠ []) (h2 : ds.all Char.isDigit = true) (hok : (goAtoiL ds).2 = true)
    (hmiss : pLookup vs (companionKey .meter (goAtoiL ds).1) = .vNil) :
    applyRules vs (String.mk ('M' :: '1' :: ds)) fs =
      .ok (insertField fs ("meter_" ++ toString (goAtoiL ds).1) .vNil) := by
  have hT : matchKey "T1" (String.mk ('M' :: '1' :: ds)) = none := by
    have e : matchKey "T1" (String.mk ('M' :: '1' :: ds)) =
        (matchKeyL ('T' :: ['1']) ('M' :: (['1'] ++ ds))).map String.mk := rfl
    rw [e, matchKeyL_firstCharDiff 'T' 'M' _ _ rfl]; rfl
  have hM : matchKey "M1" (String.mk ('M' :: '1' :: ds)) = some (String.mk ds) := by
    have e : matchKey "M1" (String.mk ('M' :: '1' :: ds)) =
        (matchKeyL ['M', '1'] (['M', '1'] ++ ds)).map String.mk := rfl
    rw [e, matchKeyL_append _ _ h1 h2]; rfl
  have hV : matchKey "VCLabel" (String.mk ('M' :: '1' :: ds)) = none := by
    have e : matchKey "VCLabel" (String.mk ('M' :: '1' :: ds)) =
        (matchKeyL ('V' :: ['C', 'L', 'a', 'b', 'e', 'l']) ('M' :: (['1'] ++ ds))).map String.mk := rfl
    rw [e, matchKeyL_firstCharDiff 'V' 'M' _ _ rfl]; rfl
  have hS : matchKey "S1" (String.mk ('M' :: '1' :: ds)) = none := by
    have e : matchKey "S1" (String.mk ('M' :: '1' :: ds)) =
        (matchKeyL ('S' :: ['1']) ('M' :: (['1'] ++ ds))).map String.mk := rfl
    rw [e, matchKeyL_firstCharDiff 'S' 'M' _ _ rfl]; rfl
  have hR : matchKey "R2" (String.mk ('M' :: '1' :: ds)) = none := by
    have e : matchKey "R2" (String.mk ('M' :: '1' :: ds)) =
        (matchKeyL ('R' :: ['2']) ('M' :: (['1'] ++ ds))).map String.mk := rfl
    rw [e, matchKeyL_firstCharDiff 'R' 'M' _ _ rfl]; rfl
  have hA : goAtoi (String.mk ds) = goAtoiL ds := rfl
  simp [applyRules, rules, applyRulesL, hT, hM, hV, hS, hR, hA, hok,
    runParser, hmiss, SensorType.tag]

/-- Decode-loop behaviour of a `vc` key whose companion value key is
absent from the payload. -/
theorem applyRules_vc_missing (vs : Payload) (fs : Fields) (ds : List Char)
    (h1 : ds ≠ []) (h2 : ds.all Char.isDigit = true) (hok : (goAtoiL ds).2 = true)
    (hmiss : pLookup vs (companionKey .vc (goAtoiL ds).1) = .vNil) :
    applyRules vs (String.mk ('V' :: 'C' :: 'L' :: 'a' :: 'b' :: 'e' :: 'l' :: ds)) fs =
      .ok (insertField fs ("vc_" ++ toString (goAtoiL ds).1) .vNil) := by
  have hT : matchKey "T1" (String.mk ('V' :: 'C' :: 'L' :: 'a' :: 'b' :: 'e' :: 'l' :: ds)) = none := by
    have e : matchKey "T1" (String.mk ('V' :: 'C' :: 'L' :: 'a' :: 'b' :: 'e' :: 'l' :: ds)) =
        (matchKeyL ('T' :: ['1']) ('V' :: (['C', 'L', 'a', 'b', 'e', 'l'] ++ ds))).map String.mk := rfl
    rw [e, matchKeyL_firstCharDiff 'T' 'V' _ _ rfl]; rfl
  have hM : matchKey "M1" (String.mk ('V' :: 'C' :: 'L' :: 'a' :: 'b' :: 'e' :: 'l' :: ds)) = none := by
    have e : matchKey "M1" (String.mk ('V' :: 'C' :: 'L' :: 'a' :: 'b' :: 'e' :: 'l' :: ds)) =
        (matchKeyL ('M' :: ['1']) ('V' :: (['C', 'L', 'a', 'b', 'e', 'l'] ++ ds))).map String.mk := rfl
    rw [e, matchKeyL_firstCharDiff 'M' 'V' _ _ rfl]; rfl
  have hV : matchKey "VCLabel" (String.mk ('V' :: 'C' :: 'L' :: 'a' :: 'b' :: 'e' :: 'l' :: ds)) = some (String.mk ds) := by
    have e : matchKey "VCLabel" (String.mk ('V' :: 'C' :: 'L' :: 'a' :: 'b' :: 'e' :: 'l' :: ds)) =
        (matchKeyL ['V', 'C', 'L', 'a', 'b', 'e', 'l'] (['V', 'C', 'L', 'a', 'b', 'e', 'l'] ++ ds)).map String.mk := rfl
    rw [e, matchKeyL_append _ _ h1 h2]; rfl
  have hS : matchKey "S1" (String.mk ('V' :: 'C' :: 'L' :: 'a' :: 'b' :: 'e' :: 'l' :: ds)) = none := by
    have e : matchKey "S1" (String.mk ('V' :: 'C' :: 'L' :: 'a' :: 'b' :: 'e' :: 'l' :: ds)) =
        (matchKeyL ('S' :: ['1']) ('V' :: (['C', 'L', 'a', 'b', 'e', 'l'] ++ ds))).map String.mk := rfl
    rw [e, matchKeyL_firstCharDiff 'S' 'V' _ _ rfl]; rfl
  have hR : matchKey "R2" (String.mk ('V' :: 'C' :: 'L' :: 'a' :: 'b' :: 'e' :: 'l' :: ds)) = none := by
    have e : matchKey "R2" (String.mk ('V' :: 'C' :: 'L' :: 'a' :: 'b' :: 'e' :: 'l' :: ds)) =
        (matchKeyL ('R' :: ['2']) ('V' :: (['C', 'L', 'a', 'b', 'e', 'l'] ++ ds))).map String.mk := rfl
    rw [e, matchKeyL_firstCharDiff 'R' 'V' _ _ rfl]; rfl
  have hA : goAtoi (String.mk ds) = goAtoiL ds := rfl
  simp [applyRules, rules, applyRulesL, hT, hM, hV, hS, hR, hA, hok,
    runParser, hmiss, SensorType.tag]

/-- Decode-loop behaviour of a `status` key whose companion value key is
absent from the payload. -/
theorem applyRules_status_missing (vs : Payload) (fs : Fields) (ds : List Char)
    (h1 : ds ≠ []) (h2 : ds.all Char.isDigit = true) (hok : (goAtoiL ds).2 = true)
    (hmiss : pLookup vs (companionKey .status (goAtoiL ds).1) = .vNil) :
    applyRules vs (String.mk ('S' :: '1' :: ds)) fs =
      .ok (insertField fs ("status_" ++ toString (goAtoiL ds).1) .vNil) := by
  have hT : matchKey "T1" (String.mk ('S' :: '1' :: ds)) = none := by
    have e : matchKey "T1" (String.mk ('S' :: '1' :: ds)) =
        (matchKeyL ('T' :: ['1']) ('S' :: (['1'] ++ ds))).map String.mk := rfl
    rw [e, matchKeyL_firstCharDiff 'T' 'S' _ _ rfl]; rfl
  have hM : matchKey "M1" (String.mk ('S' :: '1' :: ds)) = none := by
    have e : matchKey "M1" (String.mk ('S' :: '1' :: ds)) =
        (matchKeyL ('M' :: ['1']) ('S' :: (['1'] ++ ds))).map String.mk := rfl
    rw [e, matchKeyL_firstCharDiff 'M' 'S' _ _ rfl]; rfl
  have hV : matchKey "VCLabel" (String.mk ('S' :: '1' :: ds)) = none := by
    have e : matchKey "VCLabel" (String.mk ('S' :: '1' :: ds)) =
        (matchKeyL ('V' :: ['C', 'L', 'a', 'b', 'e', 'l']) ('S' :: (['1'] ++ ds))).map String.mk := rfl
    rw [e, matchKeyL_firstCharDiff 'V' 'S' _ _ rfl]; rfl
  have hS : matchKey "S1" (String.mk ('S' :: '1' :: ds)) = some (String.mk ds) := by
    have e : matchKey "S1" (String.mk ('S' :: '1' :: ds)) =
        (matchKeyL ['S', '1'] (['S', '1'] ++ ds)).map String.mk := rfl
    rw [e, matchKeyL_append _ _ h1 h2]; rfl
  have hR : matchKey "R2" (String.mk ('S' :: '1' :: ds)) = none := by
    have e : matchKey "R2" (String.mk ('S' :: '1' :: ds)) =
        (matchKeyL ('R' :: ['2']) ('S' :: (['1'] ++ ds))).map String.mk := rfl
    rw [e, matchKeyL_firstCharDiff 'R' 'S' _ _ rfl]; rfl
  have hA : goAtoi (String.mk ds) = goAtoiL ds := rfl
  simp [applyRules, rules, applyRulesL, hT, hM, hV, hS, hR, hA, hok,
    runParser, hmiss, SensorType.tag]

/-- Decode-loop behaviour of a `relay` key whose companion value key is
absent from the payload. -/
theorem applyRules_relay_missing (vs : Payload) (fs : Fields) (ds : List Char)
    (h1 : ds ≠ []) (h2 : ds.all Char.isDigit = true) (hok : (goAtoiL ds).2 = true)
    (hmiss : pLookup vs (companionKey .relay (goAtoiL ds).1) = .vNil) :
    applyRules vs (String.mk ('R' :: '2' :: ds)) fs =
      .ok (insertField fs ("relay_" ++ toString (goAtoiL ds).1) .vNil) := by
  have hT : matchKey "T1" (String.mk ('R' :: '2' :: ds)) = none := by
    have e : matchKey "T1" (String.mk ('R' :: '2' :: ds)) =
        (matchKeyL ('T' :: ['1']) ('R' :: (['2'] ++ ds))).map String.mk := rfl
    rw [e, matchKeyL_firstCharDiff 'T' 'R' _ _ rfl]; rfl
  have hM : matchKey "M1" (String.mk ('R' :: '2' :: ds)) = none := by
    have e : matchKey "M1" (String.mk ('R' :: '2' :: ds)) =
        (matchKeyL ('M' :: ['1']) ('R' :: (['2'] ++ ds))).map String.mk := rfl
    rw [e, matchKeyL_firstCharDiff 'M' 'R' _ _ rfl]; rfl
  have hV : matchKey "VCLabel" (String.mk ('R' :: '2' :: ds)) = none := by
    have e : matchKey "VCLabel" (String.mk ('R' :: '2' :: ds)) =
        (matchKeyL ('V' :: ['C', 'L', 'a', 'b', 'e', 'l']) ('R' :: (['2'] ++ ds))).map String.mk := rfl
    rw [e, matchKeyL_firstCharDiff 'V' 'R' _ _ rfl]; rfl
  have hS : matchKey "S1" (String.mk ('R' :: '2' :: ds)) = none := by
    have e : matchKey "S1" (String.mk ('R' :: '2' :: ds)) =
        (matchKeyL ('S' :: ['1']) ('R' :: (['2'] ++ ds))).map String.mk := rfl
    rw [e, matchKeyL_firstCharDiff 'S' 'R' _ _ rfl]; rfl
  have hR : matchKey "R2" (String.mk ('R' :: '2' :: ds)) = some (String.mk ds) := by
    have e : matchKey "R2" (String.mk ('R' :: '2' :: ds)) =
        (matchKeyL ['R', '2'] (['R', '2'] ++ ds)).map String.mk := rfl
    rw [e, matchKeyL_append _ _ h1 h2]; rfl
  have hA : goAtoi (String.mk ds) = goAtoiL ds := rfl
  simp [applyRules, rules, applyRulesL, hT, hM, hV, hS, hR, hA, hok,
    runParser, hmiss, SensorType.tag]

/-- C3 counterexample: a payload containing the temperature key `T105`
with no companion `TempValue05` makes the whole decode panic
(`Except.error ()` models the failed `.(string)` assertion on the `nil`
lookup), instead of producing an absent value for that field and
continuing. -/
theorem C3_counterexample :
    decodeFields [("T105", GoVal.vNum 1)] = .error () := by decide

/-- C3 (amended): a key matching a non-temperature rule (meter,
voltage/current, status, relay) whose companion value key is absent
stores the untyped `nil` for that field and decoding continues with the
remaining keys; a temperature key `T1<digits>` whose companion
`TempValue<NN>` is absent panics, aborting the whole decode (and the
poll's goroutine). -/
theorem C3_missing_companion_behavior :
    (∀ (vs : Payload) (rest : List String) (fs : Fields) (ds : List Char),
        ds ≠ [] → ds.all Char.isDigit = true → (goAtoiL ds).2 = true →
        pLookup vs (companionKey .temp (goAtoiL ds).1) = .vNil →
        decodeKeys vs (String.mk ('T' :: '1' :: ds) :: rest) fs = .error ())
    ∧ (∀ (vs : Payload) (rest : List String) (fs : Fields) (ds : List Char),
        ds ≠ [] → ds.all Char.isDigit = true → (goAtoiL ds).2 = true →
        pLookup vs (companionKey .meter (goAtoiL ds).1) = .vNil →
        decodeKeys vs (String.mk ('M' :: '1' :: ds) :: rest) fs =
          decodeKeys vs rest
            (insertField fs ("meter_" ++ toString (goAtoiL ds).1) .vNil))
    ∧ (∀ (vs : Payload) (rest : List String) (fs : Fields) (ds : List Char),
        ds ≠ [] → ds.all Char.isDigit = true → (goAtoiL ds).2 = true →
        pLookup vs (companionKey .vc (goAtoiL ds).1) = .vNil →
        decodeKeys vs
            (String.mk ('V' :: 'C' :: 'L' :: 'a' :: 'b' :: 'e' :: 'l' :: ds) :: rest) fs =
          decodeKeys vs rest
            (insertField fs ("vc_" ++ toString (goAtoiL ds).1) .vNil))
    ∧ (∀ (vs : Payload) (rest : List String) (fs : Fields) (ds : List Char),
        ds ≠ [] → ds.all Char.isDigit = true → (goAtoiL ds).2 = true →
        pLookup vs (companionKey .status (goAtoiL ds).1) = .vNil →
        decodeKeys vs (String.mk ('S' :: '1' :: ds) :: rest) fs =
          decodeKeys vs rest
            (insertField fs ("status_" ++ toString (goAtoiL ds).1) .vNil))
    ∧ (∀ (vs : Payload) (rest : List String) (fs : Fields) (ds : List Char),
        ds ≠ [] → ds.all Char.isDigit = true → (goAtoiL ds).2 = true →
        pLookup vs (companionKey .relay (goAtoiL ds).1) = .vNil →
        decodeKeys vs (String.mk ('R' :: '2' :: ds) :: rest) fs =
          decodeKeys vs rest
            (insertField fs ("relay_" ++ toString (goAtoiL ds).1) .vNil)) := by
  refine ⟨?_, ?_, ?_, ?_, ?_⟩ <;> intro vs rest fs ds h1 h2 hok hmiss
  · simp [decodeKeys, applyRules_temp_missing vs fs ds h1 h2 hok hmiss]
  · simp [decodeKeys, applyRules_meter_missing vs fs ds h1 h2 hok hmiss]
  · simp [decodeKeys, applyRules_vc_missing vs fs ds h1 h2 hok hmiss]
  · simp [decodeKeys, applyRules_status_missing vs fs ds h1 h2 hok hmiss]
  · simp [decodeKeys, applyRules_relay_missing vs fs ds h1 h2 hok hmiss]

/-- C3 witness: the temperature and meter statements applied to
concrete payloads with index `05`. -/
theorem C3_witness :
    decodeKeys [("T105", GoVal.vNum 1)] [String.mk ['T', '1', '0', '5']] [] = .error ()
    ∧ decodeKeys [("M105", GoVal.vNum 1)] [String.mk ['M', '1', '0', '5']] [] =
        decodeKeys [("M105", GoVal.vNum 1)] []
          (insertField [] ("meter_" ++ toString (goAtoiL ['0', '5']).1) .vNil) :=
  ⟨C3_missing_companion_behavior.1 [("T105", GoVal.vNum 1)] [] [] ['0', '5']
      (by decide) (by decide) (by decide) (by decide),
    C3_missing_companion_behavior.2.1 [("M105", GoVal.vNum 1)] [] [] ['0', '5']
      (by decide) (by decide) (by decide) (by decide)⟩

/-- C7 counterexample: the key `T1005` — fixed part `T1` followed by a
THREE-digit suffix — does match the temperature pattern (`\d+` accepts
any positive number of digits), and a payload containing it is decoded
(via `Atoi "005" = 5` and companion `TempValue05`), not ignored. -/
theorem C7_counterexample :
    matchKey "T1" "T1005" = some "005"
    ∧ decodeFields [("T1005", GoVal.vNum 1), ("TempValue05", GoVal.vStr "9 *F")] =
        .ok [("temp_5", GoVal.vNum 9)] := by decide

/-- C7 (amended): for every rule of the table, the key pattern accepts
a key exactly when the key is that rule's fixed part followed by ONE OR
MORE digits (the captured index suffix); in particular `T1005` matches
the temperature pattern with captured group `005` and is decoded, not
ignored. -/
theorem C7_pattern_match_characterization :
    (∀ r, r ∈ rules → ∀ (key ds : String),
        matchKey r.pre key = some ds ↔
          key.toList = r.pre.toList ++ ds.toList ∧ ds.toList ≠ [] ∧
            ds.toList.all Char.isDigit = true)
    ∧ matchKey "T1" "T1005" ≠ none
    ∧ decodeFields [("T1005", GoVal.vNum 1), ("TempValue05", GoVal.vStr "9 *F")]
        ≠ .error () := by
  refine ⟨fun r _ key ds => matchKey_eq_some_iff r.pre key ds, by decide, by decide⟩

/-- C7 witness: the characterization applied to the temperature rule
and the key `T1005`. -/
theorem C7_witness :
    matchKey "T1" "T1005" = some "005" :=
  (C7_pattern_match_characterization.1 ⟨"T1", .temp⟩ (by decide) "T1005" "005").mpr
    (by decide)

/-! ## Theorems: fleet level (claims C8, C9, C10) -/

/-- A poll that returned `nil` is reported as one grouped record. -/
theorem eventOf_of_isOk (o : GatherOut) (h : o.isOk = true) :
    (eventOf o).isOkEv = true ∧ (eventOf o).isErrEv = false := by
  cases o <;> simp_all [eventOf, GatherOut.isOk, Event.isOkEv, Event.isErrEv]

/-- A poll that returned an error is reported as one `AddError`. -/
theorem eventOf_of_isErr (o : GatherOut) (h : o.isErr = true) :
    (eventOf o).isOkEv = false ∧ (eventOf o).isErrEv = true := by
  cases o <;> simp_all [eventOf, GatherOut.isErr, Event.isOkEv, Event.isErrEv]

/-- The fan-out loop delivers exactly one report per device. -/
theorem pollAll_length (devs : List DevRec) (po : Nat → TelemetryResp × LoginResp) :
    (pollAll devs po).2.length = devs.length := by
  induction devs generalizing po with
  | nil => rfl
  | cons d rest ih => simp [pollAll, ih]

/-- When every device's poll succeeds, the batch reports no error and
one grouped record per device. -/
theorem pollAll_all_ok (devs : List DevRec) (po : Nat → TelemetryResp × LoginResp)
    (h : ∀ i (hi : i < devs.length), (devOut devs[i] (po i)).isOk = true) :
    (pollAll devs po).2.countP (fun e => e.isErrEv) = 0 ∧
    (pollAll devs po).2.countP (fun e => e.isOkEv) = devs.length := by
  induction devs generalizing po with
  | nil => simp [pollAll]
  | cons d rest ih =>
    have h0 := h 0 (by simp)
    simp only [List.getElem_cons_zero] at h0
    have ht : ∀ i (hi : i < rest.length),
        (devOut rest[i] ((fun j => po (j + 1)) i)).isOk = true := by
      intro i hi
      have := h (i + 1) (by simpa using Nat.succ_lt_succ hi)
      simpa using this
    obtain ⟨e0, e1⟩ := ih (fun j => po (j + 1)) ht
    obtain ⟨k0, k1⟩ := eventOf_of_isOk _ h0
    simp [pollAll, List.countP_cons, e0, e1, k0, k1, devOut]
    simp [devOut] at k0 k1
    simp [k0, k1]

/-- When exactly one device's poll fails and the rest succeed, the
batch reports exactly one error and one grouped record for each of the
others. -/
theorem pollAll_one_err (devs : List DevRec) (po : Nat → TelemetryResp × LoginResp)
    (k : Nat) (hk : k < devs.length)
    (herr : (devOut devs[k] (po k)).isErr = true)
    (hok : ∀ i (hi : i < devs.length), i ≠ k → (devOut devs[i] (po i)).isOk = true) :
    (pollAll devs po).2.countP (fun e => e.isErrEv) = 1 ∧
    (pollAll devs po).2.countP (fun e => e.isOkEv) = devs.length - 1 := by
  induction devs generalizing po k with
  | nil => simp at hk
  | cons d rest ih =>
    cases k with
    | zero =>
      simp only [List.getElem_cons_zero] at herr
      have ht : ∀ i (hi : i < rest.length),
          (devOut rest[i] ((fun j => po (j + 1)) i)).isOk = true := by
        intro i hi
        have := hok (i + 1) (by simpa using Nat.succ_lt_succ hi) (Nat.succ_ne_zero i)
        simpa using this
      obtain ⟨e0, e1⟩ := pollAll_all_ok rest (fun j => po (j + 1)) ht
      obtain ⟨k0, k1⟩ := eventOf_of_isErr _ herr
      simp [devOut] at k0 k1
      simp [pollAll, List.countP_cons, e0, e1, k0, k1]
    | succ j =>
      have hj : j < rest.length := by simpa using Nat.lt_of_succ_lt_succ hk
      have herr2 : (devOut rest[j] ((fun i => po (i + 1)) j)).isErr = true := by
        have := herr
        simpa using this
      have hok2 : ∀ i (hi : i < rest.length), i ≠ j →
          (devOut rest[i] ((fun m => po (m + 1)) i)).isOk = true := by
        intro i hi hne
        have := hok (i + 1) (by simpa using Nat.succ_lt_succ hi)
          (fun hc => hne (Nat.succ_injective hc))
        simpa using this
      obtain ⟨e0, e1⟩ := ih (fun m => po (m + 1)) j hj herr2 hok2
      have h0 := hok 0 (by simp) (Nat.succ_ne_zero j).symm
      simp only [List.getElem_cons_zero] at h0
      obtain ⟨k0, k1⟩ := eventOf_of_isOk _ h0
      simp [devOut] at k0 k1
      have hlen : rest.length ≥ 1 := by omega
      simp [pollAll, List.countP_cons, e0, e1, k0, k1]
      omega

/-- C8: on an initialized fleet where exactly one device's poll fails
(any failing outcome) and every other device's poll succeeds, one
`Gather` call delivers exactly one error report and `N - 1` grouped
records to the accumulator, delivers one report per device (all `N`
devices complete before it returns), and itself returns `nil`. -/
theorem C8_fleet_isolation (bt : BroadcastTools) (setup : Nat → ServerSetup)
    (po : Nat → TelemetryResp × LoginResp) (k : Nat)
    (hinit : bt.initialized = true) (hk : k < bt.devices.length)
    (herr : (devOut bt.devices[k] (po k)).isErr = true)
    (hok : ∀ i (hi : i < bt.devices.length), i ≠ k →
        (devOut bt.devices[i] (po i)).isOk = true) :
    (BroadcastTools.Gather bt setup po).2.1.countP (fun e => e.isErrEv) = 1
    ∧ (BroadcastTools.Gather bt setup po).2.1.countP (fun e => e.isOkEv) =
        bt.devices.length - 1
    ∧ (BroadcastTools.Gather bt setup po).2.1.length = bt.devices.length
    ∧ (BroadcastTools.Gather bt setup po).2.2 = none := by
  obtain ⟨c1, c2⟩ := pollAll_one_err bt.devices po k hk herr hok
  have hl := pollAll_length bt.devices po
  simp [BroadcastTools.Gather, hinit, c1, c2, hl]

/-- A device record used by concrete witnesses. -/
def sampleDev : DevRec := ⟨"a", ⟨some "sess", true⟩⟩

/-- Concrete poll transports: device 1 hits a network error, every
other device receives `200 {"values": {}}`. -/
def samplePo : Nat → TelemetryResp × LoginResp := fun i =>
  if i = 1 then (.transportErr "boom", .transportErr "x")
  else (.resp 200 (.ok [("values", .obj [])]), .transportErr "x")

/-- A three-device initialized fleet used by the C8 witness. -/
def sampleBT : BroadcastTools :=
  ⟨["a", "b", "c"], "u", "p", [sampleDev, sampleDev, sampleDev], true⟩

/-- C8 witness: three devices, the middle one failing. -/
theorem C8_witness :
    (BroadcastTools.Gather sampleBT (fun _ => .parseErr "unused") samplePo).2.1.countP
        (fun e => e.isErrEv) = 1
    ∧ (BroadcastTools.Gather sampleBT (fun _ => .parseErr "unused") samplePo).2.1.countP
        (fun e => e.isOkEv) = sampleBT.devices.length - 1
    ∧ (BroadcastTools.Gather sampleBT (fun _ => .parseErr "unused") samplePo).2.1.length =
        sampleBT.devices.length
    ∧ (BroadcastTools.Gather sampleBT (fun _ => .parseErr "unused") samplePo).2.2 = none :=
  C8_fleet_isolation sampleBT (fun _ => .parseErr "unused") samplePo 1 (by decide)
    (by decide) (by decide) (by decide)

/-- A failed `init` loop leaves `initialized` as it found it (only the
completed loop sets it). -/
theorem initLoop_err_initialized (l : List String) (setup : Nat → ServerSetup)
    (bt : BroadcastTools) (e : String)
    (h : (initLoop setup bt l).2.1 = some e) :
    (initLoop setup bt l).1.initialized = bt.initialized := by
  induction l generalizing bt setup with
  | nil => simp [initLoop] at h
  | cons u rest ih =>
    simp only [initLoop] at h ⊢
    match hs : setup 0 with
    | .parseErr e2 => simp [hs] at h ⊢
    | .parsed resp =>
      match hd : (device.Dial newDevice resp).err with
      | some e2 => simp [hs, hd] at h ⊢
      | none =>
        simp only [hs, hd] at h ⊢
        exact ih _ _ h

/-- C9: if `init` fails (bad address or failed first login of any
device), the fleet is not marked initialized, and a `Gather` call in
that situation returns the `init` failure after polling nothing; once
`initialized` is set, `init` is a no-op that issues no login request. -/
theorem C9_init_atomicity :
    (∀ (bt : BroadcastTools) (setup : Nat → ServerSetup) (e : String),
        (BroadcastTools.init bt setup).2.1 = some e →
        (BroadcastTools.init bt setup).1.initialized = false)
    ∧ (∀ (bt : BroadcastTools) (setup : Nat → ServerSetup)
          (po : Nat → TelemetryResp × LoginResp) (e : String),
        (BroadcastTools.init bt setup).2.1 = some e →
        BroadcastTools.Gather bt setup po =
          ((BroadcastTools.init bt setup).1, [], some e))
    ∧ (∀ (bt : BroadcastTools) (setup : Nat → ServerSetup),
        bt.initialized = true → BroadcastTools.init bt setup = (bt, none, 0)) := by
  refine ⟨?_, ?_, ?_⟩
  · intro bt setup e h
    by_cases hb : bt.initialized
    · simp [BroadcastTools.init, hb] at h
    · simp only [BroadcastTools.init, if_neg hb] at h ⊢
      rw [initLoop_err_initialized _ _ _ _ h]
      simpa using hb
  · intro bt setup po e h
    by_cases hb : bt.initialized
    · simp [BroadcastTools.init, hb] at h
    · rcases hinit : BroadcastTools.init bt setup with ⟨bt2, r2, n2⟩
      rw [hinit] at h
      simp only at h
      subst h
      simp [BroadcastTools.Gather, hb, hinit]
  · intro bt setup h
    simp [BroadcastTools.init, h]

/-- A setup oracle whose addresses never parse. -/
def failSetup : Nat → ServerSetup := fun _ => .parseErr "bad address"

/-- A not-yet-initialized one-server fleet. -/
def idleBT : BroadcastTools := ⟨["srv"], "u", "p", [], false⟩

/-- An initialized one-server fleet. -/
def readyBT : BroadcastTools := ⟨["srv"], "u", "p", [sampleDev], true⟩

/-- C9 witness: a failing and an already-initialized concrete fleet. -/
theorem C9_witness :
    (BroadcastTools.init idleBT failSetup).1.initialized = false
    ∧ BroadcastTools.Gather idleBT failSetup samplePo =
        ((BroadcastTools.init idleBT failSetup).1, [], some "bad address")
    ∧ BroadcastTools.init readyBT failSetup = (readyBT, none, 0) :=
  ⟨C9_init_atomicity.1 idleBT failSetup "bad address" (by decide),
    C9_init_atomicity.2.1 idleBT failSetup samplePo "bad address" (by decide),
    C9_init_atomicity.2.2 readyBT failSetup (by decide)⟩

/-- A fully successful `init` loop appends one device per server (in
order), sets `initialized`, and returns `nil`. -/
theorem initLoop_all_ok (l : List String) (setup : Nat → ServerSetup)
    (bt : BroadcastTools)
    (h : ∀ i (hi : i < l.length), (setupResult (setup i)).isOk = true) :
    (initLoop setup bt l).1.devices.map DevRec.base = bt.devices.map DevRec.base ++ l
    ∧ (initLoop setup bt l).1.initialized = true
    ∧ (initLoop setup bt l).2.1 = none
    ∧ (initLoop setup bt l).1.Servers = bt.Servers := by
  induction l generalizing bt setup with
  | nil => simp [initLoop]
  | cons u rest ih =>
    have h0 := h 0 (by simp)
    match hs : setup 0 with
    | .parseErr e2 =>
      rw [hs] at h0
      simp [setupResult, Except.isOk, Except.toBool] at h0
    | .parsed resp =>
      match hd : (device.Dial newDevice resp).err with
      | some e2 =>
        rw [hs] at h0
        simp [setupResult, hd, Except.isOk, Except.toBool] at h0
      | none =>
        have ht : ∀ i (hi : i < rest.length),
            (setupResult ((fun j => setup (j + 1)) i)).isOk = true := by
          intro i hi
          exact h (i + 1) (by simpa using Nat.succ_lt_succ hi)
        obtain ⟨e0, e1, e2, e3⟩ := ih (fun j => setup (j + 1))
          { bt with devices := bt.devices ++ [⟨u, (device.Dial newDevice resp).d⟩] } ht
        simp only [initLoop, hs, hd]
        refine ⟨?_, e1, e2, e3⟩
        rw [e0]
        simp

/-- An `init` loop whose first failure is at position `j` appends the
`j` devices dialled before the failure and keeps `initialized` as it
found it, returning an error. -/
theorem initLoop_fail_at (l : List String) (setup : Nat → ServerSetup)
    (bt : BroadcastTools) (j : Nat) (hj : j < l.length)
    (hpre : ∀ i (hi : i < j), (setupResult (setup i)).isOk = true)
    (hfail : (setupResult (setup j)).isOk = false) :
    (initLoop setup bt l).1.devices.map DevRec.base =
      bt.devices.map DevRec.base ++ l.take j
    ∧ (initLoop setup bt l).1.initialized = bt.initialized
    ∧ (initLoop setup bt l).2.1.isSome = true
    ∧ (initLoop setup bt l).1.Servers = bt.Servers := by
  induction l generalizing bt setup j with
  | nil => simp at hj
  | cons u rest ih =>
    cases j with
    | zero =>
      match hs : setup 0 with
      | .parseErr e2 =>
        simp [initLoop, hs]
      | .parsed resp =>
        match hd : (device.Dial newDevice resp).err with
        | some e2 => simp [initLoop, hs, hd]
        | none =>
          rw [hs] at hfail
          simp [setupResult, hd, Except.isOk, Except.toBool] at hfail
    | succ j2 =>
      have h0 := hpre 0 (Nat.succ_pos j2)
      match hs : setup 0 with
      | .parseErr e2 =>
        rw [hs] at h0
        simp [setupResult, Except.isOk, Except.toBool] at h0
      | .parsed resp =>
        match hd : (device.Dial newDevice resp).err with
        | some e2 =>
          rw [hs] at h0
          simp [setupResult, hd, Except.isOk, Except.toBool] at h0
        | none =>
          have hj2 : j2 < rest.length := by simpa using Nat.lt_of_succ_lt_succ hj
          have hpre2 : ∀ i (hi : i < j2),
              (setupResult ((fun m => setup (m + 1)) i)).isOk = true := by
            intro i hi
            exact hpre (i + 1) (Nat.succ_lt_succ hi)
          have hfail2 : (setupResult ((fun m => setup (m + 1)) j2)).isOk = false := by
            simpa using hfail
          obtain ⟨e0, e1, e2, e3⟩ := ih (fun m => setup (m + 1))
            { bt with devices := bt.devices ++ [⟨u, (device.Dial newDevice resp).d⟩] }
            j2 hj2 hpre2 hfail2
          simp only [initLoop, hs, hd]
          refine ⟨?_, e1, e2, e3⟩
          rw [e0]
          simp

/-- C10: when a fresh fleet's first `init` fails at server `j` (all
earlier servers dialled fine), the `j` devices already constructed stay
in `bt.devices`; a later `init` that succeeds appends a device for
EVERY configured server again, so each server before the original
failure owns two device records (its address appears twice), and every
subsequent `Gather` cycle polls all `j + N` devices (one report each). -/
theorem C10_failed_init_leaves_duplicates (S : List String) (U P : String)
    (s1 s2 : Nat → ServerSetup) (j : Nat) (po : Nat → TelemetryResp × LoginResp)
    (hj : j < S.length)
    (hpre : ∀ i (hi : i < j), (setupResult (s1 i)).isOk = true)
    (hfail : (setupResult (s1 j)).isOk = false)
    (hall : ∀ i (hi : i < S.length), (setupResult (s2 i)).isOk = true) :
    (BroadcastTools.init ⟨S, U, P, [], false⟩ s1).2.1.isSome = true
    ∧ (BroadcastTools.init ⟨S, U, P, [], false⟩ s1).1.initialized = false
    ∧ ((BroadcastTools.init (BroadcastTools.init ⟨S, U, P, [], false⟩ s1).1 s2).1.devices.map
          DevRec.base = S.take j ++ S)
    ∧ (BroadcastTools.init (BroadcastTools.init ⟨S, U, P, [], false⟩ s1).1 s2).1.initialized
        = true
    ∧ (S.Nodup → ∀ i (hi : i < j),
        ((BroadcastTools.init (BroadcastTools.init ⟨S, U, P, [], false⟩ s1).1 s2).1.devices.map
            DevRec.base).count (S.get ⟨i, Nat.lt_trans hi hj⟩) = 2)
    ∧ (BroadcastTools.Gather
          (BroadcastTools.init (BroadcastTools.init ⟨S, U, P, [], false⟩ s1).1 s2).1 s2
          po).2.1.length = j + S.length := by
  have h1 : BroadcastTools.init ⟨S, U, P, [], false⟩ s1 =
      initLoop s1 ⟨S, U, P, [], false⟩ S := rfl
  obtain ⟨a0, a1, a2, a3⟩ := initLoop_fail_at S s1 ⟨S, U, P, [], false⟩ j hj hpre hfail
  simp only at a1 a3
  rw [List.map_nil, List.nil_append] at a0
  have h2 : BroadcastTools.init (initLoop s1 ⟨S, U, P, [], false⟩ S).1 s2 =
      initLoop s2 (initLoop s1 ⟨S, U, P, [], false⟩ S).1 S := by
    rw [BroadcastTools.init, if_neg (by rw [a1]; exact Bool.false_ne_true), a3]
  obtain ⟨b0, b1, b2, b3⟩ :=
    initLoop_all_ok S s2 (initLoop s1 ⟨S, U, P, [], false⟩ S).1 hall
  rw [a0] at b0
  have hmap : (BroadcastTools.init (BroadcastTools.init ⟨S, U, P, [], false⟩ s1).1
      s2).1.devices.map DevRec.base = S.take j ++ S := by
    rw [h1, h2]; exact b0
  have hinit2 : (BroadcastTools.init (BroadcastTools.init ⟨S, U, P, [], false⟩ s1).1
      s2).1.initialized = true := by
    rw [h1, h2]; exact b1
  refine ⟨by rw [h1]; exact a2, by rw [h1]; exact a1, hmap, hinit2, ?_, ?_⟩
  · intro hnd i hi
    rw [hmap, List.count_append]
    have hiS : i < S.length := Nat.lt_trans hi hj
    have hlt : i < (S.take j).length := by simp; omega
    have hmem1 : S.get ⟨i, hiS⟩ ∈ S.take j := by
      rw [List.get_eq_getElem, ← List.getElem_take (L := S) (h := hlt)]
      exact List.getElem_mem hlt
    have hmem2 : S.get ⟨i, hiS⟩ ∈ S := S.get_mem i hiS
    rw [List.count_eq_one_of_mem (hnd.sublist (List.take_sublist j S)) hmem1,
      List.count_eq_one_of_mem hnd hmem2]
  · have hlen : (BroadcastTools.init (BroadcastTools.init ⟨S, U, P, [], false⟩ s1).1
        s2).1.devices.length = j + S.length := by
      have hc := congrArg List.length hmap
      rw [List.length_map, List.length_append, List.length_take] at hc
      omega
    simp [BroadcastTools.Gather, hinit2, pollAll_length, hlen]

/-- First server dials fine, second server's login is refused. -/
def goodThenBad : Nat → ServerSetup := fun i =>
  if i = 0 then .parsed (.resp 200 ["ck"]) else .parsed (.resp 500 [])

/-- Every server dials fine. -/
def allGood : Nat → ServerSetup := fun _ => .parsed (.resp 200 ["ck"])

/-- C10 witness: two servers, first init fails at the second server,
second init succeeds; server "a" ends up with two device records and a
cycle polls three devices. -/
theorem C10_witness :
    (BroadcastTools.init ⟨["a", "b"], "u", "p", [], false⟩ goodThenBad).2.1.isSome = true
    ∧ (BroadcastTools.init ⟨["a", "b"], "u", "p", [], false⟩ goodThenBad).1.initialized
        = false
    ∧ ((BroadcastTools.init
          (BroadcastTools.init ⟨["a", "b"], "u", "p", [], false⟩ goodThenBad).1
          allGood).1.devices.map DevRec.base = ["a", "a", "b"])
    ∧ (BroadcastTools.init
          (BroadcastTools.init ⟨["a", "b"], "u", "p", [], false⟩ goodThenBad).1
          allGood).1.initialized = true
    ∧ ((BroadcastTools.init
          (BroadcastTools.init ⟨["a", "b"], "u", "p", [], false⟩ goodThenBad).1
          allGood).1.devices.map DevRec.base).count
        (["a", "b"].get ⟨0, by decide⟩) = 2
    ∧ (BroadcastTools.Gather
          (BroadcastTools.init
            (BroadcastTools.init ⟨["a", "b"], "u", "p", [], false⟩ goodThenBad).1
            allGood).1 allGood samplePo).2.1.length = 3 := by
  have T := C10_failed_init_leaves_duplicates ["a", "b"] "u" "p" goodThenBad allGood 1
    samplePo (by decide) (by decide) (by decide) (by decide)
  exact ⟨T.1, T.2.1, T.2.2.1, T.2.2.2.1, T.2.2.2.2.1 (by decide) 0 (by decide),
    T.2.2.2.2.2⟩
